import Mathlib

/-!
Shallow embedding of the job-agent pipeline (agent.py / scheduler.py) and
verification of its specification claims.

Modelling conventions:
* A raw listing record from the search API is a record of optional string
  fields; a field that is absent from the JSON object (or null) is `none`.
* Python string truthiness (`x or y`) is modelled by `pyOr`.
* Python list indexing (which accepts negative indices and raises IndexError
  outside `[-len, len)`) is modelled by `pyGet`, returning `none` exactly when
  the Python expression raises.
* Code that can raise an uncaught exception is modelled in `Option`, with
  `none` meaning the exception propagates.
* Calls to external services (job-search HTTP API, language model, SMTP) are
  modelled by explicit oracle parameters giving each call's outcome, and where
  a claim is about the number of external calls the function also returns the
  count of model calls it performs.
* `sorted(..., key=lambda x: x["score"], reverse=True)` is Python's stable
  descending sort; it is modelled by the stable insertion sort
  `List.insertionSort rge`, which computes the identical result (the unique
  permutation that is descending by score and keeps equal-score entries in
  arrival order).
-/

namespace JobAgent

/-- Raw listing record returned by the job-search API (`data` array element).
A JSON field that is absent or null is `none`. -/
structure RawJob where
  job_id : Option String
  job_title : Option String
  employer_name : Option String
  job_city : Option String
  job_country : Option String
  job_apply_link : Option String
  job_google_link : Option String
  job_description : Option String
  job_posted_at_datetime_utc : Option String
deriving DecidableEq

/-- Python `j.get(k) or default` for a string-valued field: the default is used
when the field is absent (None) or the empty string (both falsy in Python). -/
def pyOr (a : Option String) (b : String) : String :=
  match a with
  | some s => if s = "" then b else s
  | none => b

/-- Canonical listing produced by `parse_jobs` (agent.py lines 72-83). -/
structure Job where
  title : String
  company : String
  location : String
  url : String
  description : String
  posted : String
deriving DecidableEq

/-- Normalization of one raw record, mirroring the dict literal in
`parse_jobs`: `job_title or "Unknown"`, `employer_name or "Unknown"`,
`(job_city or "") + ", " + (job_country or "")`,
`job_apply_link or job_google_link or ""`,
`(job_description or "")[:3000]`, `job_posted_at_datetime_utc or ""`. -/
def parse_job (j : RawJob) : Job :=
  { title := pyOr j.job_title ("Unknown")
    company := pyOr j.employer_name ("Unknown")
    location := pyOr j.job_city ("") ++ ", " ++ pyOr j.job_country ("")
    url := pyOr j.job_apply_link (pyOr j.job_google_link (""))
    description := ⟨(pyOr j.job_description ("")).data.take 3000⟩
    posted := pyOr j.job_posted_at_datetime_utc ("") }

/-- `parse_jobs` maps the normalizer over the raw records (agent.py 72-83). -/
def parse_jobs (raw_jobs : List RawJob) : List Job :=
  raw_jobs.map parse_job

/-- Identity key used for deduplication in `run` (agent.py line 280):
`job.get("job_id") or job.get("job_apply_link", "")`. -/
def identity_key (j : RawJob) : String :=
  pyOr j.job_id (j.job_apply_link.getD "")

/-- The deduplication loop of `run` (agent.py 274-284) with the current
`seen_ids` set made explicit: emit a record iff its key is unseen. -/
def dedupGo (seen : List String) : List RawJob → List RawJob
  | [] => []
  | j :: rest =>
    if identity_key j ∈ seen then dedupGo seen rest
    else j :: dedupGo (identity_key j :: seen) rest

/-- Deduplication of the raw records accumulated across all fetches of one
run, starting from an empty `seen_ids` set. -/
def dedup (raws : List RawJob) : List RawJob :=
  dedupGo [] raws

/-- One entry of the parsed model ranking response: an object with keys
`index` (1-based), `score`, `reason`. -/
structure RankEntry where
  index : Int
  score : Int
  reason : String
deriving DecidableEq

/-- One element of `select_top_jobs`' result:
`{"job": ..., "score": ..., "reason": ...}`. -/
structure SelectedJob where
  job : Job
  score : Int
  reason : String
deriving DecidableEq

/-- Python list indexing `l[i]`: non-negative indices are 0-based from the
front, negative indices count from the back, and an index outside
`[-len(l), len(l))` raises IndexError (modelled as `none`). -/
def pyGet {α : Type _} (l : List α) (i : Int) : Option α :=
  if 0 ≤ i then l.get? i.toNat
  else if -(l.length : Int) ≤ i then l.get? ((l.length : Int) + i).toNat
  else none

/-- Ordering used by `sorted(rankings, key=lambda x: x["score"], reverse=True)`:
descending by score. -/
def rge (a b : RankEntry) : Prop := b.score ≤ a.score

instance : DecidableRel rge := fun a b => inferInstanceAs (Decidable (b.score ≤ a.score))

instance : IsTotal RankEntry rge := ⟨fun a b => Int.le_total b.score a.score⟩

instance : IsTrans RankEntry rge := ⟨fun _ _ _ h1 h2 => le_trans h2 h1⟩

/-- Stable descending sort of the ranking entries; computes the same list as
Python's stable `sorted(..., reverse=True)` on the score key. -/
def sortRankings (l : List RankEntry) : List RankEntry :=
  List.insertionSort rge l

/-- The Python list comprehension building the result of `select_top_jobs`:
it evaluates `jobs[r["index"] - 1]` for each kept entry in order and raises
(i.e. returns `none`) at the first entry whose lookup raises. -/
def mapListExc {α β : Type _} (f : α → Option β) : List α → Option (List β)
  | [] => some []
  | a :: rest =>
    match f a with
    | none => none
    | some b => (mapListExc f rest).map (fun bs => b :: bs)

/-- `select_top_jobs` (agent.py 87-124), with the model's parsed ranking
response passed as the `rankings` oracle (the prompt construction, the
code-fence stripping and the JSON parse are the model-response layer; the
claims range over the parsed array). The second component counts language
model calls: the empty-input early return performs none, every other path
performs exactly one. The first component is `none` when the index-mapping
comprehension raises an uncaught IndexError. -/
def select_top_jobs (jobs : List Job) (rankings : List RankEntry) :
    Option (List SelectedJob) × Nat :=
  if jobs = [] then (some [], 0)
  else
    let top := (sortRankings rankings).take 10
    (mapListExc
      (fun r => (pyGet jobs (r.index - 1)).map (fun j => ⟨j, r.score, r.reason⟩))
      top, 1)

/-- Outcome of the HTTP request for one date-filter tier: `Except.error`
models any transport or HTTP-status exception, `Except.ok` the decoded
`data` array of the JSON body (`data.get("data", [])`). -/
abbrev TierResp := String → Except String (List RawJob)

/-- The per-tier loop of `fetch_linkedin_jobs` (agent.py 49-69): for each
remaining date filter, issue the request once; on an exception log and return
the empty list immediately (the remaining tiers are not attempted); on a
non-empty truncated batch return it; on an empty batch fall through to the
next tier. The second component records which tiers were attempted, each at
most once (there is no retry within a tier). -/
def fetchGo (resp : TierResp) (limit : Nat) : List String → List RawJob × List String
  | [] => ([], [])
  | t :: ts =>
    match resp t with
    | .error _ => ([], [t])
    | .ok data =>
      let jobs := data.take limit
      if jobs = [] then
        let rest := fetchGo resp limit ts
        (rest.1, t :: rest.2)
      else (jobs, [t])

/-- `fetch_linkedin_jobs` iterates the two date filters `"3days"` then
`"week"` (agent.py line 49). -/
def fetch_linkedin_jobs (resp : TierResp) (limit : Nat) : List RawJob × List String :=
  fetchGo resp limit [("3days"), ("week")]

/-- One parsed contact-suggestion object returned by `suggest_contacts`
(agent.py 154-177): an object with the four named keys. -/
structure Contact where
  profile_type : String
  why : String
  search_tip : String
  message_template : String
deriving DecidableEq

/-- Python whitespace class used by `str.strip()`. -/
def isPySpace (c : Char) : Bool :=
  c = ' ' || c = '\t' || c = '\n' || c = '\r' || c = '\x0b' || c = '\x0c'

/-- Python `s.strip()`: remove leading and trailing whitespace. -/
def pyStrip (s : String) : String :=
  ⟨((s.data.dropWhile isPySpace).reverse.dropWhile isPySpace).reverse⟩

/-- Python `s.replace(p, rep)` for a single-character pattern `p`: every
occurrence of `p` is expanded to `rep` in one left-to-right pass. -/
def pyReplaceChar (s : List Char) (p : Char) (rep : List Char) : List Char :=
  s.flatMap (fun c => if c = p then rep else [c])

/-- String-level wrapper of `pyReplaceChar`. -/
def pyReplace (s : String) (p : Char) (rep : String) : String :=
  ⟨pyReplaceChar s.data p rep.data⟩

/-- The escaping applied to the tailored CV text before interpolation
(agent.py line 202):
`tailored.replace("<", "&lt;").replace(">", "&gt;").replace("\n", "<br>")`. -/
def escape_cv (tailored : String) : String :=
  pyReplace (pyReplace (pyReplace tailored '<' ("&lt;")) '>' ("&gt;")) '\n' ("<br>")

/-- The contact block f-string appended to `contact_html` for one contact
(agent.py 194-200); the four contact fields are interpolated verbatim. -/
def renderContact (c : Contact) : String :=
  "\n            <div style=\"background:#f0f7ff;border-left:3px solid #0077b5;padding:10px;margin:8px 0;border-radius:4px;\">\n              <strong>🔗 "
    ++ c.profile_type
    ++ "</strong><br>\n              <em>Why:</em> "
    ++ c.why
    ++ "<br>\n              <em>Find them:</em> LinkedIn search → <code>"
    ++ c.search_tip
    ++ "</code><br>\n              <em>Message:</em> \""
    ++ c.message_template
    ++ "\"\n            </div>"

/-- The per-job section f-string of `build_email` (agent.py 203-226), with
`i` the 1-based position, `cv_escaped` the escaped tailored CV and
`contact_html` the concatenated contact blocks. -/
def renderSection (i : Nat) (e : SelectedJob) (cv_escaped contact_html : String) : String :=
  "\n        <div style=\"border:1px solid #ddd;border-radius:8px;padding:20px;margin:20px 0;font-family:Arial,sans-serif;\">\n          <div style=\"display:flex;justify-content:space-between;align-items:center;\">\n            <h2 style=\"color:#0077b5;margin:0\">#"
    ++ toString i
    ++ " "
    ++ e.job.title
    ++ "</h2>\n            <span style=\"background:#0077b5;color:#fff;border-radius:20px;padding:4px 12px;font-size:12px;\">\n              Match: "
    ++ toString e.score
    ++ "/100\n            </span>\n          </div>\n          <p style=\"margin:4px 0;color:#555;font-size:14px;\">🏢 "
    ++ e.job.company
    ++ " &nbsp;|&nbsp; 📍 "
    ++ e.job.location
    ++ "</p>\n          <p style=\"color:#333;font-size:13px;margin:6px 0\">"
    ++ e.reason
    ++ "</p>\n          <a href=\""
    ++ e.job.url
    ++ "\" style=\"display:inline-block;background:#0077b5;color:#fff;padding:8px 18px;\n             border-radius:5px;text-decoration:none;font-size:14px;margin:8px 0;\">Apply on LinkedIn →</a>\n\n          <details style=\"margin-top:16px;\">\n            <summary style=\"cursor:pointer;font-weight:bold;color:#333;\">📄 Tailored CV for this role</summary>\n            <div style=\"background:#f9f9f9;padding:14px;border-radius:6px;margin-top:8px;\n                        font-size:13px;line-height:1.6;white-space:pre-wrap;\">"
    ++ cv_escaped
    ++ "</div>\n          </details>\n\n          <div style=\"margin-top:16px;\">\n            <strong>👥 Who to contact on LinkedIn</strong>\n            "
    ++ contact_html
    ++ "\n          </div>\n        </div>"

/-- The per-job loop of `build_email` (agent.py 185-226). `tailorResp cv job`
is the model's raw text for the CV-tailoring request of `tailor_cv` (whose
result is stripped of surrounding whitespace), and `contactsResp job prefs`
is the parsed contact array of `suggest_contacts`; each loop iteration
performs exactly these two language-model calls, counted in the second
component. `i` is the 1-based position from `enumerate(top_jobs, 1)`. -/
def build_sections (cv preferences : String) (tailorResp : String → Job → String)
    (contactsResp : Job → String → List Contact) :
    Nat → List SelectedJob → List String × Nat
  | _, [] => ([], 0)
  | i, e :: rest =>
    let tailored := pyStrip (tailorResp cv e.job)
    let contacts := contactsResp e.job preferences
    let contact_html := String.join (contacts.map renderContact)
    let cv_escaped := escape_cv tailored
    let r := build_sections cv preferences tailorResp contactsResp (i + 1) rest
    (renderSection i e cv_escaped contact_html :: r.1, r.2 + 2)

/-- `build_email` (agent.py 181-243). `today` is the ambient
`datetime.now().strftime("%A, %B %d %Y")` reading, passed explicitly. The
first component is the returned `body_html`; the second counts the language
model calls performed while building the sections. -/
def build_email (top_jobs : List SelectedJob) (cv preferences : String)
    (tailorResp : String → Job → String) (contactsResp : Job → String → List Contact)
    (today : String) : String × Nat :=
  let sc := build_sections cv preferences tailorResp contactsResp 1 top_jobs
  ("\n<!DOCTYPE html>\n<html>\n<head><meta charset=\"utf-8\"></head>\n<body style=\"font-family:Arial,sans-serif;max-width:800px;margin:auto;padding:20px;color:#222;\">\n  <h1 style=\"color:#0077b5\">🔍 Daily Job Digest — "
    ++ today
    ++ "</h1>\n  <p>Here are the <strong>top "
    ++ toString top_jobs.length
    ++ " jobs</strong> posted in the last few days, tailored just for you.\n  Click any \"Tailored CV\" to expand it.</p>\n  "
    ++ String.join sc.1
    ++ "\n  <hr style=\"margin-top:40px\">\n  <p style=\"color:#999;font-size:12px;text-align:center\">\n    Powered by your personal Job Agent 🤖 &nbsp;|&nbsp; Good luck today! 💪\n  </p>\n</body>\n</html>", sc.2)

/-- External-world oracle for one pipeline run: the file contents, the
outcome of each job-search request (keywords, location, date filter), the
parsed model ranking response, the model responses of the tailoring and
contact-suggestion calls, the current date string, and whether the SMTP
send succeeds. -/
structure Env where
  cv : String
  preferences : String
  resp : String → String → TierResp
  rankings : List RankEntry
  tailorResp : String → Job → String
  contactsResp : Job → String → List Contact
  today : String
  sendOk : Bool

/-- Observable outcome of a completed run: whether an email was sent and, if
so, its HTML body. -/
structure RunResult where
  emailSent : Bool
  html : Option String
deriving DecidableEq

/-- The fixed search list of `run` (agent.py 268-272). -/
def searches : List (String × String) :=
  [(("HR People Operations Marketing"), ("Milan Italy")),
   (("Talent Acquisition Content"), ("Milan Italy")),
   (("HR Marketing remote"), ("Europe"))]

/-- The fetch-and-deduplicate phase of `run` (agent.py 274-284): fetch each
configured (keywords, location) pair with limit 15 and deduplicate the
concatenated arrival-order stream against the shared `seen_ids` set. -/
def gatherRaw (env : Env) : List RawJob :=
  dedup ((searches.map (fun p => (fetch_linkedin_jobs (env.resp p.1 p.2) 15).1)).flatten)

/-- `run` (agent.py 263-298): fetch, deduplicate, normalize, select; if zero
jobs are selected, log and return without sending; otherwise build the digest
(performing the per-job model calls) and send it. `none` models an uncaught
exception propagating out of the run. -/
def run (env : Env) : Option RunResult :=
  match (select_top_jobs (parse_jobs (gatherRaw env)) env.rankings).1 with
  | none => none
  | some top_jobs =>
    if top_jobs = [] then some { emailSent := false, html := none }
    else
      if env.sendOk then
        some { emailSent := true,
               html := some (build_email top_jobs env.cv env.preferences
                 env.tailorResp env.contactsResp env.today).1 }
      else none

/-- Boolean substring test on character lists (used to state that a verbatim
fragment occurs in rendered HTML). -/
def hasSubstring (pat : List Char) : List Char → Bool
  | [] => pat.isPrefixOf []
  | c :: rest => pat.isPrefixOf (c :: rest) || hasSubstring pat rest

/-- Per-character angle-bracket escaping: the combined effect of the two
`replace` calls on `<` and `>`. -/
def escChar (c : Char) : List Char :=
  if c = '<' then ("&lt;").data else if c = '>' then ("&gt;").data else [c]

/-- Raw listing record with every optional field missing. -/
def emptyRaw : RawJob := ⟨none, none, none, none, none, none, none, none, none⟩

/-- Concrete canonical listing used to instantiate theorems. -/
def sampleJob : Job := ⟨("T"), ("C"), ("L"), ("U"), ("D"), ("P")⟩

/-- Concrete selected job used to instantiate theorems. -/
def sampleEntry : SelectedJob := ⟨sampleJob, 90, ("fits")⟩

/-- Concrete contact suggestion whose `profile_type` contains raw HTML. -/
def xssContact : Contact := ⟨("<script>alert(1)</script>"), ("w"), ("s"), ("m")⟩

/-- Concrete CV-tailoring model response oracle. -/
def sampleTailor : String → Job → String := fun _ _ => ("line1\nline2 <b>")

/-- Concrete contact-suggestion model response oracle. -/
def sampleContacts : Job → String → List Contact := fun _ _ => [xssContact]

/-- Tier-response oracle whose first ("3days") request raises a transport
error. -/
def respErr : TierResp := fun t => if t = ("3days") then .error ("boom") else .ok []

/-- Run environment in which every search request returns an empty `data`
array. -/
def env0 : Env :=
  { cv := ("c"), preferences := ("p"), resp := fun _ _ _ => .ok [], rankings := [],
    tailorResp := fun _ _ => (""), contactsResp := fun _ _ => [], today := ("d"),
    sendOk := true }

/-! ### Helper lemmas -/

theorem dedupGo_sublist (seen : List String) (l : List RawJob) :
    List.Sublist (dedupGo seen l) l := by
  induction l generalizing seen with
  | nil => simp [dedupGo]
  | cons j rest ih =>
    simp only [dedupGo]
    split
    · exact List.Sublist.cons j (ih seen)
    · exact List.Sublist.cons₂ j (ih _)

theorem dedupGo_key_not_seen (seen : List String) (l : List RawJob) :
    ∀ j ∈ dedupGo seen l, identity_key j ∉ seen := by
  induction l generalizing seen with
  | nil => simp [dedupGo]
  | cons a rest ih =>
    simp only [dedupGo]
    split
    · exact ih seen
    · rename_i hnot
      intro j hj
      rcases List.mem_cons.mp hj with rfl | h
      · exact hnot
      · intro hmem
        exact ih (identity_key a :: seen) j h (List.mem_cons_of_mem _ hmem)

theorem dedupGo_pairwise (seen : List String) (l : List RawJob) :
    (dedupGo seen l).Pairwise (fun a b => identity_key a ≠ identity_key b) := by
  induction l generalizing seen with
  | nil => simp [dedupGo]
  | cons a rest ih =>
    simp only [dedupGo]
    split
    · exact ih seen
    · refine List.pairwise_cons.mpr ⟨?_, ih _⟩
      intro b hb heq
      exact dedupGo_key_not_seen _ _ b hb (heq ▸ List.mem_cons_self _ _)

theorem dedupGo_covers (seen : List String) (l : List RawJob) :
    ∀ j ∈ l, identity_key j ∈ seen ∨
      ∃ j2 ∈ dedupGo seen l, identity_key j2 = identity_key j := by
  induction l generalizing seen with
  | nil => simp
  | cons a rest ih =>
    intro j hj
    simp only [dedupGo]
    rcases List.mem_cons.mp hj with rfl | h
    · by_cases hs : identity_key j ∈ seen
      · exact Or.inl hs
      · right
        rw [if_neg hs]
        exact ⟨j, List.mem_cons_self _ _, rfl⟩
    · by_cases hs : identity_key a ∈ seen
      · rw [if_pos hs]
        exact ih seen j h
      · rw [if_neg hs]
        rcases ih (identity_key a :: seen) j h with h2 | ⟨j2, hj2, he⟩
        · rcases List.mem_cons.mp h2 with he2 | hseen
          · exact Or.inr ⟨a, List.mem_cons_self _ _, he2.symm⟩
          · exact Or.inl hseen
        · exact Or.inr ⟨j2, List.mem_cons_of_mem _ hj2, he⟩

theorem mapListExc_eq_none_iff {α β : Type _} (f : α → Option β) (l : List α) :
    mapListExc f l = none ↔ ∃ a ∈ l, f a = none := by
  induction l with
  | nil => simp [mapListExc]
  | cons a rest ih =>
    cases hfa : f a with
    | none =>
      simp only [mapListExc, hfa]
      exact ⟨fun _ => ⟨a, List.mem_cons_self _ _, hfa⟩, fun _ => trivial⟩
    | some b =>
      simp only [mapListExc, hfa]
      constructor
      · intro h
        cases hrest : mapListExc f rest with
        | none =>
          obtain ⟨x, hx, hfx⟩ := ih.mp hrest
          exact ⟨x, List.mem_cons_of_mem _ hx, hfx⟩
        | some bs => rw [hrest] at h; cases h
      · rintro ⟨x, hx, hfx⟩
        rcases List.mem_cons.mp hx with rfl | hx2
        · rw [hfa] at hfx; cases hfx
        · rw [ih.mpr ⟨x, hx2, hfx⟩]; rfl

theorem mapListExc_map_eq {α β γ : Type _} (f : α → Option β) (g : β → γ) (h : α → γ)
    (H : ∀ a b, f a = some b → g b = h a) :
    ∀ (l : List α) (bs : List β), mapListExc f l = some bs → bs.map g = l.map h := by
  intro l
  induction l with
  | nil =>
    intro bs hbs
    simp only [mapListExc] at hbs
    cases hbs
    simp
  | cons a rest ih =>
    intro bs hbs
    simp only [mapListExc] at hbs
    cases hfa : f a with
    | none => rw [hfa] at hbs; cases hbs
    | some b =>
      rw [hfa] at hbs
      cases hrest : mapListExc f rest with
      | none => rw [hrest] at hbs; cases hbs
      | some bs2 =>
        rw [hrest] at hbs
        simp only [Option.map_some'] at hbs
        cases hbs
        simp only [List.map_cons]
        rw [H a b hfa, ih bs2 hrest]

theorem pyGet_eq_none_iff {α : Type _} (l : List α) (i : Int) :
    pyGet l i = none ↔ ((l.length : Int) ≤ i ∨ i < -(l.length : Int)) := by
  unfold pyGet
  split
  · rename_i h0
    rw [List.get?_eq_none]
    constructor
    · intro hle; omega
    · intro hor; omega
  · rename_i h0
    split
    · rename_i hge
      rw [List.get?_eq_none]
      constructor
      · intro hle; omega
      · intro hor; omega
    · rename_i hge
      simp only [eq_self_iff_true, true_iff]
      omega

theorem build_sections_calls (cv preferences : String) (tR : String → Job → String)
    (cR : Job → String → List Contact) (l : List SelectedJob) :
    ∀ i : Nat, (build_sections cv preferences tR cR i l).2 = 2 * l.length := by
  induction l with
  | nil => intro i; rfl
  | cons e rest ih =>
    intro i
    simp only [build_sections]
    rw [ih (i + 1)]
    simp [List.length_cons]
    omega

theorem pyReplaceChar_not_mem_self (s : List Char) (p : Char) (rep : List Char)
    (h : p ∉ rep) : p ∉ pyReplaceChar s p rep := by
  intro hmem
  rw [pyReplaceChar, List.mem_flatMap] at hmem
  obtain ⟨c, _, hc⟩ := hmem
  by_cases hcp : c = p
  · rw [if_pos hcp] at hc; exact h hc
  · rw [if_neg hcp] at hc
    rw [List.mem_singleton] at hc
    exact hcp hc.symm

theorem pyReplaceChar_not_mem (s : List Char) (p q : Char) (rep : List Char)
    (hs : q ∉ s) (hr : q ∉ rep) : q ∉ pyReplaceChar s p rep := by
  intro hmem
  rw [pyReplaceChar, List.mem_flatMap] at hmem
  obtain ⟨c, hcs, hc⟩ := hmem
  by_cases hcp : c = p
  · rw [if_pos hcp] at hc; exact hr hc
  · rw [if_neg hcp] at hc
    rw [List.mem_singleton] at hc
    exact hs (hc ▸ hcs)

theorem double_replace_eq_flatMap (s : List Char) :
    pyReplaceChar (pyReplaceChar s '<' ("&lt;").data) '>' ("&gt;").data
      = s.flatMap escChar := by
  rw [pyReplaceChar, pyReplaceChar, List.flatMap_assoc]
  congr 1
  funext c
  by_cases h1 : c = '<'
  · subst h1; decide
  · by_cases h2 : c = '>'
    · subst h2; decide
    · rw [if_neg h1]
      simp [escChar, h1, h2]

/-! ### Claim theorems -/

/-- C3 counterexample: on a raw record missing all optional fields, the
normalized `location` is the string ", " (comma-space, from concatenating the
two empty fallbacks around the literal separator), not the empty string the
claim states. -/
theorem parse_jobs_location_default_not_empty :
    (parse_jobs [emptyRaw]).map Job.location = [(", ")] ∧ ((", ") : String) ≠ ("") := by
  constructor
  · rfl
  · decide

/-- C3 (amended): for a raw record missing all optional fields, `parse_jobs`
yields title "Unknown", company "Unknown", location ", " (comma-space), and
empty strings for url, description and posted timestamp. -/
theorem parse_jobs_missing_fields_defaults :
    parse_jobs [emptyRaw]
      = [⟨("Unknown"), ("Unknown"), (", "), (""), (""), ("")⟩] := by
  rfl

/-- C6: on an empty listing set, `select_top_jobs` returns the empty result
and performs zero language-model calls. -/
theorem select_top_jobs_empty_skips_model (rankings : List RankEntry) :
    select_top_jobs [] rankings = (some [], 0) := by
  rfl

/-- C7: the angle-bracket escaping applied to the tailored CV text before
interpolation: after `replace("<", "&lt;").replace(">", "&gt;")` the string
contains no raw '<' or '>' characters (each original occurrence is expanded
per character to "&lt;" / "&gt;"), and `escape_cv` is exactly that string
with newlines then turned into "<br>" tags. -/
theorem tailored_cv_angle_brackets_escaped (s : String) :
    ('<' ∉ (pyReplace (pyReplace s '<' ("&lt;")) '>' ("&gt;")).data
      ∧ '>' ∉ (pyReplace (pyReplace s '<' ("&lt;")) '>' ("&gt;")).data)
    ∧ (pyReplace (pyReplace s '<' ("&lt;")) '>' ("&gt;")).data = s.data.flatMap escChar
    ∧ escape_cv s = pyReplace (pyReplace (pyReplace s '<' ("&lt;")) '>' ("&gt;")) '\n' ("<br>") := by
  refine ⟨⟨?_, ?_⟩, ?_, rfl⟩
  · show '<' ∉ pyReplaceChar (pyReplaceChar s.data '<' ("&lt;").data) '>' ("&gt;").data
    apply pyReplaceChar_not_mem
    · exact pyReplaceChar_not_mem_self _ _ _ (by decide)
    · decide
  · show '>' ∉ pyReplaceChar (pyReplaceChar s.data '<' ("&lt;").data) '>' ("&gt;").data
    apply pyReplaceChar_not_mem_self
    decide
  · exact double_replace_eq_flatMap s.data

/-- C9: tier behaviour of `fetch_linkedin_jobs`. An error on the "3days"
request returns the empty list immediately with no further tier attempted and
no retry; a non-empty truncated "3days" batch is returned without touching
"week"; an empty "3days" batch falls through to "week", whose error again
returns empty; otherwise the "week" batch (truncated) or empty is returned;
and the returned batch never exceeds the limit. -/
theorem fetch_linkedin_jobs_tier_behaviour (resp : TierResp) (limit : Nat) :
    (∀ e, resp ("3days") = .error e →
      fetch_linkedin_jobs resp limit = ([], [("3days")]))
    ∧ (∀ d, resp ("3days") = .ok d → d.take limit ≠ [] →
      fetch_linkedin_jobs resp limit = (d.take limit, [("3days")]))
    ∧ (∀ d e, resp ("3days") = .ok d → d.take limit = [] →
      resp ("week") = .error e →
      fetch_linkedin_jobs resp limit = ([], [("3days"), ("week")]))
    ∧ (∀ d d2, resp ("3days") = .ok d → d.take limit = [] →
      resp ("week") = .ok d2 → d2.take limit ≠ [] →
      fetch_linkedin_jobs resp limit = (d2.take limit, [("3days"), ("week")]))
    ∧ (∀ d d2, resp ("3days") = .ok d → d.take limit = [] →
      resp ("week") = .ok d2 → d2.take limit = [] →
      fetch_linkedin_jobs resp limit = ([], [("3days"), ("week")]))
    ∧ (fetch_linkedin_jobs resp limit).1.length ≤ limit := by
  refine ⟨?_, ?_, ?_, ?_, ?_, ?_⟩
  · intro e h
    simp [fetch_linkedin_jobs, fetchGo, h]
  · intro d h hne
    simp [fetch_linkedin_jobs, fetchGo, h, hne]
  · intro d e h he hw
    simp [fetch_linkedin_jobs, fetchGo, h, he, hw]
  · intro d d2 h he hw hne
    simp [fetch_linkedin_jobs, fetchGo, h, he, hw, hne]
  · intro d d2 h he hw he2
    simp [fetch_linkedin_jobs, fetchGo, h, he, hw, he2]
  · simp only [fetch_linkedin_jobs, fetchGo]
    cases h3 : resp ("3days") with
    | error e => simp
    | ok d =>
      by_cases hd : d.take limit = []
      · simp only [hd, if_pos rfl]
        cases hw : resp ("week") with
        | error e => simp
        | ok d2 =>
          by_cases hd2 : d2.take limit = []
          · simp [hd2]
          · simp [hd2, List.length_take_le]
      · simp [hd, List.length_take_le]

/-- C9 witness: with an oracle whose "3days" request errors, the fetch
returns empty having attempted only that tier. -/
theorem fetch_linkedin_jobs_tier_behaviour_witness :
    fetch_linkedin_jobs respErr 15 = ([], [("3days")]) :=
  (fetch_linkedin_jobs_tier_behaviour respErr 15).1 ("boom") rfl

/-- C1 counterexample: `build_email` is not free of external calls — on a
single selected job it performs 2 language-model calls (CV tailoring and
contact suggestion), not 0. -/
theorem build_email_performs_external_calls :
    (build_email [sampleEntry] ("cv") ("p") sampleTailor sampleContacts ("Mon")).2 = 2
    ∧ (2 : Nat) ≠ 0 := by
  exact ⟨rfl, by decide⟩

/-- C1 (amended): given identical inputs — selected jobs, CV text,
preferences, the model's responses to the tailoring and contact requests, and
the current-date string — `build_email` produces byte-identical HTML; but it
performs two external language-model calls per selected job (rather than
none), and it reads the date from the ambient clock rather than receiving it
from the caller. -/
theorem build_email_deterministic_two_calls_per_job
    (tj tj2 : List SelectedJob) (cv cv2 pf pf2 : String)
    (tR tR2 : String → Job → String) (cR cR2 : Job → String → List Contact)
    (d d2 : String)
    (h1 : tj = tj2) (h2 : cv = cv2) (h3 : pf = pf2) (h4 : tR = tR2)
    (h5 : cR = cR2) (h6 : d = d2) :
    (build_email tj cv pf tR cR d).1 = (build_email tj2 cv2 pf2 tR2 cR2 d2).1
    ∧ (build_email tj cv pf tR cR d).2 = 2 * tj.length := by
  subst h1 h2 h3 h4 h5 h6
  refine ⟨rfl, ?_⟩
  simp only [build_email]
  exact build_sections_calls cv pf tR cR tj 1

/-- C1 witness: the amended theorem instantiated at a concrete one-job
input. -/
theorem build_email_deterministic_witness :
    (build_email [sampleEntry] ("cv") ("p") sampleTailor sampleContacts ("Mon")).1
        = (build_email [sampleEntry] ("cv") ("p") sampleTailor sampleContacts ("Mon")).1
    ∧ (build_email [sampleEntry] ("cv") ("p") sampleTailor sampleContacts ("Mon")).2
        = 2 * ([sampleEntry] : List SelectedJob).length :=
  build_email_deterministic_two_calls_per_job _ _ _ _ _ _ _ _ _ _ _ _
    rfl rfl rfl rfl rfl rfl

set_option maxRecDepth 20000 in
/-- C10: the contact-suggestion fields are interpolated into the digest HTML
verbatim: a `profile_type` containing raw angle brackets appears unescaped
(the substring "<script>" occurs in the rendered output), unlike the tailored
CV text, which the same renderer angle-bracket-escapes. -/
theorem contact_fields_interpolated_unescaped :
    hasSubstring (("<script>").data)
      ((build_email [sampleEntry] ("cv") ("p") sampleTailor sampleContacts ("Monday")).1.data)
      = true
    ∧ xssContact.profile_type = ("<script>alert(1)</script>")
    ∧ escape_cv (("<script>alert(1)</script>"))
        = ("&lt;script&gt;alert(1)&lt;/script&gt;") := by
  refine ⟨?_, rfl, ?_⟩
  · decide
  · decide

/-- C2 counterexample: the ranking index 0 is outside the valid range 1..n,
yet `select_top_jobs` does not raise: Python's negative indexing makes
`jobs[0 - 1]` return the LAST listing, so the call succeeds and silently maps
the wrong record. -/
theorem select_top_jobs_out_of_range_index_no_error :
    ((select_top_jobs [sampleJob] [⟨0, 50, ("r")⟩]).1).isSome = true
    ∧ (select_top_jobs [sampleJob] [⟨0, 50, ("r")⟩]).1 = some [⟨sampleJob, 50, ("r")⟩]
    ∧ ¬ (1 ≤ (0 : Int) ∧ (0 : Int) ≤ (([sampleJob] : List Job).length : Int)) := by
  refine ⟨?_, ?_, ?_⟩ <;> decide

/-- C2 (amended): an entry of the model ranking raises an uncaught lookup
error iff it is kept after sorting and truncation and its index `i` satisfies
`i > n` or `i ≤ -n` (with `n` the number of listings); indices in `1..n`
never raise (and out-of-range indices in `(-n, 0]` are silently accepted via
Python negative indexing, mapping to the wrong listing). -/
theorem select_top_jobs_index_error_characterization
    (jobs : List Job) (rankings : List RankEntry) :
    ((∀ r ∈ rankings, 1 ≤ r.index ∧ r.index ≤ (jobs.length : Int)) →
      ((select_top_jobs jobs rankings).1).isSome = true)
    ∧ (jobs ≠ [] →
      (((select_top_jobs jobs rankings).1 = none) ↔
        ∃ r ∈ (sortRankings rankings).take 10,
          ((jobs.length : Int) < r.index ∨ r.index ≤ -(jobs.length : Int)))) := by
  constructor
  · intro hall
    by_cases hne : jobs = []
    · subst hne; rfl
    · simp only [select_top_jobs, if_neg hne]
      refine Option.isSome_iff_ne_none.mpr ?_
      intro hm
      obtain ⟨r, hr, hfr⟩ := (mapListExc_eq_none_iff _ _).mp hm
      have hrmem : r ∈ rankings := by
        have h1 := List.take_subset 10 (sortRankings rankings) hr
        simpa [sortRankings] using h1
      obtain ⟨ha, hb⟩ := hall r hrmem
      have hg : pyGet jobs (r.index - 1) = none := by
        cases hpg : pyGet jobs (r.index - 1) with
        | none => rfl
        | some j => rw [hpg] at hfr; cases hfr
      rw [pyGet_eq_none_iff] at hg
      omega
  · intro hne
    simp only [select_top_jobs, if_neg hne]
    rw [mapListExc_eq_none_iff]
    constructor
    · rintro ⟨r, hr, hfr⟩
      have hg : pyGet jobs (r.index - 1) = none := by
        cases hpg : pyGet jobs (r.index - 1) with
        | none => rfl
        | some j => rw [hpg] at hfr; cases hfr
      rw [pyGet_eq_none_iff] at hg
      exact ⟨r, hr, by omega⟩
    · rintro ⟨r, hr, hor⟩
      refine ⟨r, hr, ?_⟩
      have hg : pyGet jobs (r.index - 1) = none :=
        (pyGet_eq_none_iff _ _).mpr (by omega)
      rw [hg]
      rfl

/-- C2 witness: with the single in-range index 1 on a one-listing set, the
selection succeeds. -/
theorem select_top_jobs_index_error_characterization_witness :
    ((select_top_jobs [sampleJob] [⟨(1 : Int), 5, ("x")⟩]).1).isSome = true :=
  (select_top_jobs_index_error_characterization [sampleJob] [⟨(1 : Int), 5, ("x")⟩]).1
    (by decide)

/-- C4: deduplication of the raw records accumulated across all fetches of a
run: the output is a sublist of the arrival sequence (first-seen order is
preserved), no two output records share an identity key, and every input
record's identity key is represented in the output. -/
theorem dedup_first_seen_order_unique_keys (raws : List RawJob) :
    List.Sublist (dedup raws) raws
    ∧ (dedup raws).Pairwise (fun a b => identity_key a ≠ identity_key b)
    ∧ ∀ j ∈ raws, ∃ j2 ∈ dedup raws, identity_key j2 = identity_key j := by
  refine ⟨dedupGo_sublist [] raws, dedupGo_pairwise [] raws, ?_⟩
  intro j hj
  rcases dedupGo_covers [] raws j hj with h | h
  · exact absurd h (List.not_mem_nil _)
  · exact h

/-- C4 witness: the dedup properties evaluated on a concrete two-record
stream with equal identity keys. -/
theorem dedup_first_seen_order_unique_keys_witness :
    List.Sublist (dedup [emptyRaw, emptyRaw]) [emptyRaw, emptyRaw]
    ∧ (dedup [emptyRaw, emptyRaw]).Pairwise (fun a b => identity_key a ≠ identity_key b)
    ∧ ∀ j ∈ [emptyRaw, emptyRaw], ∃ j2 ∈ dedup [emptyRaw, emptyRaw],
        identity_key j2 = identity_key j :=
  dedup_first_seen_order_unique_keys [emptyRaw, emptyRaw]

/-- C5: whenever `select_top_jobs` returns a result (on a non-empty listing
set), the result is sorted by descending score, has length at most 10, and
when the model returned fewer than 10 entries the result has exactly one
element per returned entry (no padding). -/
theorem select_top_jobs_sorted_truncated
    (jobs : List Job) (rankings : List RankEntry) (res : List SelectedJob)
    (hne : jobs ≠ []) (hres : (select_top_jobs jobs rankings).1 = some res) :
    (res.map SelectedJob.score).Pairwise (fun a b => b ≤ a)
    ∧ res.length ≤ 10
    ∧ (rankings.length < 10 → res.length = rankings.length) := by
  simp only [select_top_jobs, if_neg hne] at hres
  have Hsc : ∀ (a : RankEntry) (b : SelectedJob),
      (pyGet jobs (a.index - 1)).map (fun j => (⟨j, a.score, a.reason⟩ : SelectedJob))
        = some b →
      SelectedJob.score b = RankEntry.score a := by
    intro a b hab
    rw [Option.map_eq_some'] at hab
    obtain ⟨j, _, hj⟩ := hab
    rw [← hj]
  have hmap := mapListExc_map_eq _ SelectedJob.score RankEntry.score Hsc
    ((sortRankings rankings).take 10) res hres
  have hlen : res.length = ((sortRankings rankings).take 10).length := by
    have h2 := congrArg List.length hmap
    simpa using h2
  have hlen2 : ((sortRankings rankings).take 10).length = min 10 rankings.length := by
    simp [sortRankings, List.length_take]
  refine ⟨?_, ?_, ?_⟩
  · rw [hmap]
    have hsorted : (sortRankings rankings).Pairwise rge :=
      List.sorted_insertionSort rge rankings
    have htake : ((sortRankings rankings).take 10).Pairwise rge :=
      List.Pairwise.sublist (List.take_sublist _ _) hsorted
    exact List.pairwise_map.mpr htake
  · omega
  · intro h; omega

/-- C5 witness: two returned entries on a one-listing set come back sorted by
descending score, with length 2 (not padded to 10). -/
theorem select_top_jobs_sorted_truncated_witness :
    ((([⟨sampleJob, 90, ("b")⟩, ⟨sampleJob, 10, ("a")⟩] : List SelectedJob).map
        SelectedJob.score).Pairwise (fun a b => b ≤ a))
    ∧ ([⟨sampleJob, 90, ("b")⟩, ⟨sampleJob, 10, ("a")⟩] : List SelectedJob).length ≤ 10
    ∧ (([⟨(1 : Int), 10, ("a")⟩, ⟨(1 : Int), 90, ("b")⟩] : List RankEntry).length < 10 →
        ([⟨sampleJob, 90, ("b")⟩, ⟨sampleJob, 10, ("a")⟩] : List SelectedJob).length
          = ([⟨(1 : Int), 10, ("a")⟩, ⟨(1 : Int), 90, ("b")⟩] : List RankEntry).length) :=
  select_top_jobs_sorted_truncated [sampleJob]
    [⟨(1 : Int), 10, ("a")⟩, ⟨(1 : Int), 90, ("b")⟩]
    [⟨sampleJob, 90, ("b")⟩, ⟨sampleJob, 10, ("a")⟩]
    (by decide) (by decide)

/-- C8: whenever the ranking step selects zero jobs, `run` returns normally
(no uncaught exception) and no email is sent. -/
theorem run_zero_selected_skips_email (env : Env)
    (h : (select_top_jobs (parse_jobs (gatherRaw env)) env.rankings).1 = some []) :
    run env = some { emailSent := false, html := none } := by
  unfold run
  rw [h]
  rfl

/-- C8 witness: in an environment where every search returns no listings, the
run completes without sending an email. -/
theorem run_zero_selected_skips_email_witness :
    run env0 = some { emailSent := false, html := none } :=
  run_zero_selected_skips_email env0 (by decide)

end JobAgent
